import Mathlib

/-!
Verification development for the freePanes multi-device preview tool.
The definitions below are shallow embeddings of the functions in
src/renderer.js and src/main.js; JS numbers that carry pixel positions
are modelled as rationals, timestamps as integers, and fallible
asynchronous calls as Except-valued oracles.
-/

namespace FreePanes

/-! ## Sync settings and UI toggles (renderer.js lines 44-50, 905-930, 986-1079) -/

structure SyncSettings where
  scroll : Bool
  navigation : Bool
  click : Bool
  hover : Bool
  input : Bool
deriving Repr, DecidableEq

structure UIState where
  syncSettings : SyncSettings
  hideScrollbars : Bool
deriving Repr, DecidableEq

/-- Defaults from renderer.js lines 43-50. -/
def initialUIState : UIState :=
  { syncSettings := { scroll := true, navigation := true, click := true,
                      hover := false, input := false },
    hideScrollbars := true }

/-- Scroll-sync toggle click handler (renderer.js lines 990-1000):
reads the active class (mirror of the flag) and flips the flag. -/
def toggleScrollSync (s : UIState) : UIState :=
  { s with syncSettings := { s.syncSettings with scroll := !s.syncSettings.scroll } }

/-- Navigation-sync toggle (renderer.js lines 1006-1014). -/
def toggleNavigationSync (s : UIState) : UIState :=
  { s with syncSettings := { s.syncSettings with navigation := !s.syncSettings.navigation } }

/-- Click-sync toggle (renderer.js lines 1020-1029). -/
def toggleClickSync (s : UIState) : UIState :=
  { s with syncSettings := { s.syncSettings with click := !s.syncSettings.click } }

/-- Hover-sync toggle (renderer.js lines 1035-1044). -/
def toggleHoverSync (s : UIState) : UIState :=
  { s with syncSettings := { s.syncSettings with hover := !s.syncSettings.hover } }

/-- Input-sync toggle (renderer.js lines 1050-1059). -/
def toggleInputSync (s : UIState) : UIState :=
  { s with syncSettings := { s.syncSettings with input := !s.syncSettings.input } }

/-- updateScrollSyncState (renderer.js lines 905-930): forces the scroll
channel off while scrollbars are hidden and back on when they are shown. -/
def updateScrollSyncState (s : UIState) : UIState :=
  if s.hideScrollbars then
    { s with syncSettings := { s.syncSettings with scroll := false } }
  else
    { s with syncSettings := { s.syncSettings with scroll := true } }

/-- Hide-scrollbars toggle (renderer.js lines 1065-1077): flips
hideScrollbars and then calls updateScrollSyncState. -/
def toggleHideScrollbars (s : UIState) : UIState :=
  updateScrollSyncState { s with hideScrollbars := !s.hideScrollbars }

/-! ## URL loading and history (renderer.js lines 772-791, 1139-1148) -/

/-- The protocol normalisation inside loadURL (renderer.js lines 774-779). -/
def normalizeURL (input : String) : String :=
  let t := input.trim
  if !(t.startsWith ("http://")) && !(t.startsWith ("https://")) then
    "https://" ++ t
  else
    t

/-- saveToHistory (renderer.js lines 1139-1148): drop exact duplicates,
put the new URL first, keep at most 20 entries. -/
def saveToHistory (history : List String) (url : String) : List String :=
  (url :: history.filter (fun item => item ≠ url)).take 20

structure BrowserUIState where
  urlInput : String
  currentURL : String
  urlHistory : List String
  paneURLs : List String
deriving Repr, DecidableEq

/-- loadURL (renderer.js lines 772-791): trim, add the https scheme when
missing, write back to the input, save to history and load in every pane. -/
def loadURL (s : BrowserUIState) : BrowserUIState :=
  let u := normalizeURL s.urlInput
  { s with
    currentURL := u,
    urlInput := u,
    urlHistory := saveToHistory s.urlHistory u,
    paneURLs := s.paneURLs.map (fun _ => u) }

/-! ## Scroll percent round trip (renderer.js lines 405-418 and 580-587) -/

/-- The document quantities the injected script reads:
documentElement.scrollWidth and scrollHeight, window.innerWidth and
innerHeight, window.scrollX and scrollY. -/
structure ScrollDoc where
  scrollWidth : ℚ
  scrollHeight : ℚ
  innerWidth : ℚ
  innerHeight : ℚ
  scrollX : ℚ
  scrollY : ℚ
deriving Repr, DecidableEq

/-- Payload computed by the scroll listener (renderer.js lines 412-415):
fraction of the scrollable range, with the denominator floored at 1. -/
def emitScrollPercent (d : ScrollDoc) : ℚ × ℚ :=
  (d.scrollX / max 1 (d.scrollWidth - d.innerWidth),
   d.scrollY / max 1 (d.scrollHeight - d.innerHeight))

/-- Browser clamping of window.scrollTo: the resulting position lies in
[0, max 0 maxV]. -/
def clampScroll (v maxV : ℚ) : ℚ :=
  min (max v 0) (max maxV 0)

/-- The scroll branch of applySyncAction (renderer.js lines 580-587):
percent times the target document scrollable range, applied instantly. -/
def applyScrollAction (d : ScrollDoc) (p : ℚ × ℚ) : ScrollDoc :=
  let maxX := d.scrollWidth - d.innerWidth
  let maxY := d.scrollHeight - d.innerHeight
  { d with
    scrollX := clampScroll (p.1 * maxX) maxX,
    scrollY := clampScroll (p.2 * maxY) maxY }

/-! ## Selector generator (renderer.js lines 234-307, injected script) -/

/-- A DOM element as the generator reads it: id, className (a
space-separated token string, empty when absent) and tagName. -/
structure DomElement where
  id : String
  className : String
  tagName : String
deriving Repr, DecidableEq

/-- Read interface over the live document: querySelectorAll match counts,
the parent chain (none at or above document.body), whether an element is
document.body, and the parent children that share the element tag name
together with the element position among them. -/
structure Dom where
  count : String → Nat
  parentOf : DomElement → Option DomElement
  isBody : DomElement → Bool
  sameTagSiblingCount : DomElement → Nat
  sameTagSiblingIndex : DomElement → Nat

/-- JS String.prototype.includes for a nonempty pattern: splitOn yields
more than one part exactly when the pattern occurs. -/
def jsIncludes (s pat : String) : Bool :=
  (s.splitOn pat).length != 1

/-- className.trim().split on whitespace runs, dropping empty tokens. -/
def classTokens (className : String) : List String :=
  (className.splitOn (" ")).filter (fun c => c ≠ "")

/-- Class filter of the single and two class steps (renderer.js lines
241-242): drop tokens containing active, hover or focus. -/
def stableClassFilter (c : String) : Bool :=
  !(jsIncludes c ("active")) && !(jsIncludes c ("hover")) && !(jsIncludes c ("focus"))

/-- Class filter of the path step (renderer.js lines 271-279): also drop
tokens containing mobile, desktop or tablet; keep at most two. -/
def pathStableClasses (className : String) : List String :=
  ((classTokens className).filter (fun c =>
    stableClassFilter c &&
    !(jsIncludes c ("mobile")) && !(jsIncludes c ("desktop")) && !(jsIncludes c ("tablet")))).take 2

/-- One level of the path walk (renderer.js lines 267-293): lowercase tag,
up to two stable classes, and an nth-child index only when there are
between two and three same tag siblings and no class was usable. -/
def levelSelector (dom : Dom) (current : DomElement) : String :=
  let sel := current.tagName.toLower
  let cs := pathStableClasses current.className
  let sel := if cs.length > 0 then sel ++ "." ++ String.intercalate (".") cs else sel
  let n := dom.sameTagSiblingCount current
  if n > 1 && n ≤ 3 && !(jsIncludes sel (".")) then
    sel ++ ":nth-child(" ++ toString (dom.sameTagSiblingIndex current + 1) ++ ")"
  else
    sel

/-- The path walk (renderer.js lines 262-306): climb toward document.body
for at most three levels, prepending a level selector each time, and stop
early as soon as the accumulated path is unique in the document. -/
def pathWalk (dom : Dom) : Nat → Option DomElement → List String → String
  | _, none, path => String.intercalate (" > ") path
  | 0, some _, path => String.intercalate (" > ") path
  | fuel + 1, some current, path =>
    if dom.isBody current then String.intercalate (" > ") path
    else
      let path' := levelSelector dom current :: path
      if dom.count (String.intercalate (" > ") path') = 1 then
        String.intercalate (" > ") path'
      else
        pathWalk dom fuel (dom.parentOf current) path'

/-- generateSelector (renderer.js lines 234-307): id first, then a unique
single class, then a unique two class combination, then the bounded path. -/
def generateSelector (dom : Dom) (element : DomElement) : String :=
  if element.id ≠ "" then ("#" ++ element.id)
  else
    let classes := (classTokens element.className).filter stableClassFilter
    match classes.find? (fun cls => dom.count ("." ++ cls) = 1) with
    | some cls => "." ++ cls
    | none =>
      let twoClass : Option String :=
        if classes.length ≥ 2 then
          let sel := "." ++ String.intercalate (".") (classes.take 2)
          if dom.count sel = 1 then some sel else none
        else none
      match twoClass with
      | some sel => sel
      | none => pathWalk dom 3 (some element) []

/-! ## Pane event listeners and the re-entrancy guard
(injected script, renderer.js lines 225-227, 405-418, 434-494, 503-545,
548-572, 575-639) -/

/-- A normalised SyncEvent as emitted over the console side channel. -/
inductive SyncEvent
  | scroll (percentX percentY : ℚ)
  | click (selector : String) (x y : ℚ)
  | hover (selector : String)
  | inputEvt (id value : String)
deriving Repr, DecidableEq

/-- Pane local mutable context of the injected script: the re-entrancy
flag and the two throttle clocks (renderer.js lines 225-227). -/
structure PaneCtx where
  isProcessingSync : Bool
  lastScrollTime : ℤ
  lastClickTime : ℤ
deriving Repr, DecidableEq

/-- scrollHandler (renderer.js lines 405-418): suppressed while
isProcessingSync, throttled to 50ms, otherwise emits the percent payload. -/
def scrollHandler (ctx : PaneCtx) (now : ℤ) (d : ScrollDoc) : PaneCtx × Option SyncEvent :=
  if ctx.isProcessingSync then (ctx, none)
  else if now - ctx.lastScrollTime < 50 then (ctx, none)
  else
    let p := emitScrollPercent d
    ({ ctx with lastScrollTime := now }, some (SyncEvent.scroll p.1 p.2))

/-- syncClickHandler (renderer.js lines 434-494): suppressed while
isProcessingSync, throttled to 100ms, otherwise emits the click payload
with the selector built for the click target. -/
def syncClickHandler (ctx : PaneCtx) (now : ℤ) (sel : String) (x y : ℚ) :
    PaneCtx × Option SyncEvent :=
  if ctx.isProcessingSync then (ctx, none)
  else if now - ctx.lastClickTime < 100 then (ctx, none)
  else ({ ctx with lastClickTime := now }, some (SyncEvent.click sel x y))

/-- hoverOverHandler (renderer.js lines 507-528): suppressed while
isProcessingSync, edge triggered on the hovered element, and the debounced
emission only happens when the generated selector is nonempty. -/
def hoverOverHandler (ctx : PaneCtx) (lastHovered : Option DomElement) (dom : Dom)
    (target : DomElement) : Option DomElement × Option SyncEvent :=
  if ctx.isProcessingSync then (lastHovered, none)
  else if lastHovered = some target then (lastHovered, none)
  else
    let sel := generateSelector dom target
    (some target, if sel ≠ "" then some (SyncEvent.hover sel) else none)

/-- An input element as syncInputHandler reads it. -/
structure InputElement where
  id : String
  tagName : String
  value : String
deriving Repr, DecidableEq

/-- syncInputHandler (renderer.js lines 551-564): suppressed while
isProcessingSync; only INPUT and TEXTAREA elements with an id emit, after
a 500ms debounce. -/
def syncInputHandler (ctx : PaneCtx) (el : InputElement) : Option SyncEvent :=
  if ctx.isProcessingSync then none
  else if el.id ≠ "" && (el.tagName = "INPUT" || el.tagName = "TEXTAREA") then
    some (SyncEvent.inputEvt el.id el.value)
  else none

/-- The click branch of applySyncAction (renderer.js lines 575-606, 637):
the flag is raised before the synthetic MouseEvent is dispatched, the
capture phase click listener of the same pane observes that event while
the flag is still raised, and the flag is cleared by the 50ms timeout. -/
def applyClickAction (ctx : PaneCtx) (now : ℤ) (sel : String) (x y : ℚ) :
    PaneCtx × Option SyncEvent :=
  let ctx1 := { ctx with isProcessingSync := true }
  let (ctx2, echo) := syncClickHandler ctx1 now sel x y
  ({ ctx2 with isProcessingSync := false }, echo)

/-- The scroll branch of applySyncAction under the same guard: the
programmatic scrollTo fires the pane scroll listener while the flag is
raised. -/
def applyScrollActionPane (ctx : PaneCtx) (now : ℤ) (d : ScrollDoc) (px py : ℚ) :
    PaneCtx × ScrollDoc × Option SyncEvent :=
  let ctx1 := { ctx with isProcessingSync := true }
  let d' := applyScrollAction d (px, py)
  let (ctx2, echo) := scrollHandler ctx1 now d'
  ({ ctx2 with isProcessingSync := false }, d', echo)

/-- The echo a target pane would re-emit for a click applied into it. -/
def paneEcho (p : PaneCtx) (now : ℤ) (sel : String) (x y : ℚ) : Option SyncEvent :=
  (applyClickAction p now sel x y).2

/-- Cascade of one original user click in pane src: the source listener
may emit once, the Sync Dispatcher then broadcasts applySyncAction to
every other pane, and every echo those applies re-emit would invoke the
dispatcher again.  The result counts dispatcher invocations. -/
def syncEchoCascade (panes : List PaneCtx) (src : Nat) (now : ℤ) (sel : String)
    (x y : ℚ) : Nat :=
  match panes.get? src with
  | none => 0
  | some ctx =>
    match (syncClickHandler ctx now sel x y).2 with
    | none => 0
    | some _ =>
      let others := (List.range panes.length).filter (fun j => j ≠ src)
      let echoes := others.filterMap (fun j =>
        (panes.get? j).bind (fun p => paneEcho p now sel x y))
      1 + echoes.length

/-! ## Sync dispatcher and action recorder
(renderer.js lines 650-699, 702-726, 728-759) -/

/-- The four SyncEvent channel tags the console message prefixes carry. -/
inductive SyncType
  | scroll
  | click
  | hover
  | inputTy
deriving Repr, DecidableEq

/-- Which channel flag governs a message of the given type
(renderer.js lines 658, 661, 676, 679). -/
def channelEnabled (s : SyncSettings) : SyncType → Bool
  | SyncType.scroll => s.scroll
  | SyncType.click => s.click
  | SyncType.hover => s.hover
  | SyncType.inputTy => s.input

/-- webview.lastRecordedAction (renderer.js line 651), initialised to
time 0 with an empty type; the empty JS type string is modelled as none. -/
structure LastRecorded where
  time : ℤ
  type : Option SyncType
  data : String
deriving Repr, DecidableEq

/-- The denormalised viewport stamped onto recorded entries. -/
structure Viewport where
  width : Nat
  height : Nat
  deviceScaleFactor : ℚ
deriving Repr, DecidableEq

/-- A renderer side webview handle with the fields the recorder reads:
device name, current URL (empty when blank), the injected script
availability (whether executeJavaScript resolves), device info and the
dedup bookkeeping. -/
structure Webview where
  deviceName : String
  url : String
  scriptOk : Bool
  deviceInfo : Option Viewport
  lastRecordedAction : LastRecorded
deriving Repr, DecidableEq

/-- An entry of the per device action log (renderer.js lines 712-722);
the spread JSON payload is carried as an opaque data string. -/
structure RecordedAction where
  type : SyncType
  deviceName : String
  timestamp : ℤ
  viewport : Viewport
  data : String
deriving Repr, DecidableEq

/-- webview.deviceInfo?.width || 375 and friends (renderer.js lines
717-721): optional chaining and JS falsy fallbacks. -/
def viewportOf (wv : Webview) : Viewport :=
  match wv.deviceInfo with
  | none => { width := 375, height := 667, deviceScaleFactor := 1 }
  | some di =>
    { width := if di.width = 0 then 375 else di.width,
      height := if di.height = 0 then 667 else di.height,
      deviceScaleFactor := if di.deviceScaleFactor = 0 then 1 else di.deviceScaleFactor }

/-- Renderer global state touched by the dispatcher and recorder:
the webview list, the sync settings, the recording flag and the
deviceSpecificActions map (renderer.js lines 35-50). -/
structure RendererState where
  webviews : List Webview
  syncSettings : SyncSettings
  isRecording : Bool
  deviceSpecificActions : String → List RecordedAction

/-- storeDeviceSpecificAction (renderer.js lines 702-726): returns early
on an empty device name, otherwise appends the stamped entry to the
device log and reports the appended entry. -/
def storeDeviceSpecificAction (logs : String → List RecordedAction) (wv : Webview)
    (t : SyncType) (data : String) (now : ℤ) :
    (String → List RecordedAction) × List RecordedAction :=
  if wv.deviceName = "" then (logs, [])
  else
    let entry : RecordedAction :=
      { type := t, deviceName := wv.deviceName, timestamp := now,
        viewport := viewportOf wv, data := data }
    (fun d => if d = wv.deviceName then logs d ++ [entry] else logs d, [entry])

/-- The duplicate test shared by both recording paths (renderer.js lines
667-669 and 741-744): same type as the last recorded action of that
webview and less than 100ms after it. -/
def isDuplicateFor (wv : Webview) (t : SyncType) (now : ℤ) : Bool :=
  wv.lastRecordedAction.type = some t && now - wv.lastRecordedAction.time < 100

/-- The body syncToOtherWebviews runs for one webview of the list
(renderer.js lines 729-757): skip the source and blank webviews, issue
applySyncAction, and in the resolution callback record the synced click
or input for the target device with the duplicate guard. -/
def syncToOtherAux (recording : Bool) (t : SyncType) (data : String) (now : ℤ)
    (srcIdx : Nat) :
    Nat → List Webview → (String → List RecordedAction) →
    List Webview × (String → List RecordedAction) × List (Nat × SyncType × String) ×
      List RecordedAction
  | _, [], logs => ([], logs, [], [])
  | j, wv :: rest, logs =>
    if j ≠ srcIdx && wv.url ≠ "" then
      if wv.scriptOk then
        if recording && (t = SyncType.click || t = SyncType.inputTy) then
          if isDuplicateFor wv t now then
            let res := syncToOtherAux recording t data now srcIdx (j + 1) rest logs
            (wv :: res.1, res.2.1, (j, t, data) :: res.2.2.1, res.2.2.2)
          else
            let stored := storeDeviceSpecificAction logs wv t data now
            let wv' := { wv with lastRecordedAction := { time := now, type := some t, data := data } }
            let res := syncToOtherAux recording t data now srcIdx (j + 1) rest stored.1
            (wv' :: res.1, res.2.1, (j, t, data) :: res.2.2.1, stored.2 ++ res.2.2.2)
        else
          let res := syncToOtherAux recording t data now srcIdx (j + 1) rest logs
          (wv :: res.1, res.2.1, (j, t, data) :: res.2.2.1, res.2.2.2)
      else
        let res := syncToOtherAux recording t data now srcIdx (j + 1) rest logs
        (wv :: res.1, res.2.1, (j, t, data) :: res.2.2.1, res.2.2.2)
    else
      let res := syncToOtherAux recording t data now srcIdx (j + 1) rest logs
      (wv :: res.1, res.2.1, res.2.2.1, res.2.2.2)

/-- syncToOtherWebviews (renderer.js lines 728-759) over the renderer
state; also returns the applySyncAction commands issued and the log
entries appended for target devices. -/
def syncToOtherWebviews (st : RendererState) (srcIdx : Nat) (t : SyncType)
    (data : String) (now : ℤ) :
    RendererState × List (Nat × SyncType × String) × List RecordedAction :=
  let res := syncToOtherAux st.isRecording t data now srcIdx 0 st.webviews st.deviceSpecificActions
  ({ st with webviews := res.1, deviceSpecificActions := res.2.1 }, res.2.2.1, res.2.2.2)

/-- The source side recording block of the console message handler
(renderer.js lines 665-675 for clicks, 682-691 for inputs): duplicate
guard against the source webview, then store and update the bookkeeping. -/
def recordSyncForSource (st : RendererState) (srcIdx : Nat) (t : SyncType)
    (data : String) (now : ℤ) : RendererState × List RecordedAction :=
  if st.isRecording then
    match st.webviews.get? srcIdx with
    | none => (st, [])
    | some wv =>
      if isDuplicateFor wv t now then (st, [])
      else
        let stored := storeDeviceSpecificAction st.deviceSpecificActions wv t data now
        let wv' := { wv with lastRecordedAction := { time := now, type := some t, data := data } }
        ({ st with deviceSpecificActions := stored.1, webviews := st.webviews.set srcIdx wv' }, stored.2)
  else (st, [])

/-- The outcome of handling one console message: the new state, whether
the Sync Dispatcher (syncToOtherWebviews) was invoked, the applySyncAction
commands it issued, and the DeviceActionLog entries appended. -/
structure StepOut where
  state : RendererState
  dispatcherInvoked : Bool
  forwards : List (Nat × SyncType × String)
  appends : List RecordedAction

/-- The console-message handler (renderer.js lines 654-699) for a parsed
SYNC message of type t with payload data arriving from webview srcIdx:
when the channel is enabled the event is forwarded to the other panes,
and during recording only click and input events are stored (for the
source device here, for target devices inside the dispatcher); RECORD
messages are skipped (lines 692-695). -/
def handleConsoleMessage (st : RendererState) (srcIdx : Nat) (t : SyncType)
    (data : String) (now : ℤ) : StepOut :=
  if channelEnabled st.syncSettings t then
    let synced := syncToOtherWebviews st srcIdx t data now
    if t = SyncType.click || t = SyncType.inputTy then
      let recorded := recordSyncForSource synced.1 srcIdx t data now
      { state := recorded.1, dispatcherInvoked := true, forwards := synced.2.1,
        appends := synced.2.2 ++ recorded.2 }
    else
      { state := synced.1, dispatcherInvoked := true, forwards := synced.2.1,
        appends := synced.2.2 }
  else
    { state := st, dispatcherInvoked := false, forwards := [], appends := [] }

/-! ## Replay engine (main.js lines 271-525) -/

/-- The element probe the click path evaluates first (main.js lines
282-295): existence, visibility, bounding rectangle and text. -/
structure ElementProbe where
  found : Bool
  visible : Bool
  text : String
  rectX : ℚ
  rectY : ℚ
  rectW : ℚ
  rectH : ℚ
deriving Repr, DecidableEq

/-- Result of the visible-text tree walk (main.js lines 310-350). -/
structure TextSearchHit where
  found : Bool
  x : ℚ
  y : ℚ
deriving Repr, DecidableEq

/-- One recorded action as the replay loop consumes it; absent JS fields
are the empty string or none. -/
structure ReplayAction where
  type : SyncType
  selector : String
  text : String
  coordinates : Option (ℚ × ℚ)
  value : String
  scrollPos : Option (ℚ × ℚ)
deriving Repr, DecidableEq

/-- The automated page as an oracle: every driver call either succeeds or
throws. Effects on the live page are outside the model; only the
control flow of the replay loop is embedded. -/
structure ReplayPage where
  probeSelector : String → Except String ElementProbe
  clickSelector : String → Except String Unit
  mouseClick : ℚ → ℚ → Except String Unit
  findVisibleByText : String → Except String TextSearchHit
  focusAt : ℚ → ℚ → Except String Unit
  markAt : ℚ → ℚ → String → Except String Unit
  clickMarked : Except String Unit
  clearMark : Except String Unit
  dispatchClickAt : ℚ → ℚ → Except String Unit
  afterClickState : Except String Unit
  fillSelector : String → String → Except String Unit
  scrollWindowTo : ℚ → ℚ → Except String Unit
  waitNetworkIdle : Except String Unit

/-- A JS try/catch block over fallible driver calls. -/
def jsTryCatch (body : Except String Unit) (handler : String → Except String Unit) :
    Except String Unit :=
  match body with
  | Except.ok u => Except.ok u
  | Except.error e => handler e

/-- The tiered click attempt on a visible element found by text (main.js
lines 357-425): focus, then the marked Playwright click with cleanup,
falling back to a raw mouse click plus synthetic event dispatch, with
the outermost failure only logged. -/
def tieredTextClick (page : ReplayPage) (hit : TextSearchHit) (textToFind : String) :
    Except String Unit :=
  jsTryCatch
    (do
      _ ← page.focusAt hit.x hit.y
      jsTryCatch
        (do
          _ ← page.markAt hit.x hit.y textToFind
          _ ← page.clickMarked
          page.clearMark)
        (fun _ => do
          _ ← page.mouseClick hit.x hit.y
          page.dispatchClickAt hit.x hit.y))
    (fun _ => Except.ok ())

/-- The text-mismatch branch of the click replay (main.js lines 301-453):
search for a visible element by the recorded text, click it through the
tiers, then observe the page state; on a missing hit or a thrown search
fall back to the original selector, never fatally. -/
def textMismatchClick (page : ReplayPage) (a : ReplayAction) : Except String Unit :=
  jsTryCatch
    (do
      let hit ← page.findVisibleByText a.text.trim
      if hit.found then do
        _ ← tieredTextClick page hit a.text.trim
        _ ← page.afterClickState
        Except.ok ()
      else
        page.clickSelector a.selector)
    (fun _ => jsTryCatch (page.clickSelector a.selector) (fun _ => Except.ok ()))

/-- The click action replay (main.js lines 279-485). -/
def replayClick (page : ReplayPage) (a : ReplayAction) : Except String Unit :=
  if a.selector ≠ "" then do
    let probe ← page.probeSelector a.selector
    if probe.found && probe.visible then
      if a.text ≠ "" && probe.text.trim ≠ a.text.trim then
        textMismatchClick page a
      else
        jsTryCatch (page.clickSelector a.selector)
          (fun _ =>
            jsTryCatch
              (page.mouseClick (probe.rectX + probe.rectW / 2)
                (probe.rectY + probe.rectH / 2))
              (fun _ => Except.ok ()))
    else if probe.found && !probe.visible then
      Except.ok ()
    else
      match a.coordinates with
      | some c => page.mouseClick c.1 c.2
      | none => Except.ok ()
  else
    match a.coordinates with
    | some c => page.mouseClick c.1 c.2
    | none => Except.ok ()

/-- The input action replay (main.js lines 487-495): fill, failure
logged and swallowed. -/
def replayInput (page : ReplayPage) (a : ReplayAction) : Except String Unit :=
  if a.selector ≠ "" && a.value ≠ "" then
    jsTryCatch (page.fillSelector a.selector a.value) (fun _ => Except.ok ())
  else
    Except.ok ()

/-- The scroll action replay (main.js lines 496-503): absolute scrollTo. -/
def replayScroll (page : ReplayPage) (a : ReplayAction) : Except String Unit :=
  match a.scrollPos with
  | some p => page.scrollWindowTo p.1 p.2
  | none => Except.ok ()

/-- The body of one loop iteration before the per-action catch (main.js
lines 277-515): the action by type, then the settle wait and the
network-idle wait whose timeout is tolerated. -/
def replayActionBody (page : ReplayPage) (a : ReplayAction) : Except String Unit := do
  _ ← match a.type with
      | SyncType.click => replayClick page a
      | SyncType.inputTy => replayInput page a
      | SyncType.scroll => replayScroll page a
      | SyncType.hover => Except.ok ()
  jsTryCatch page.waitNetworkIdle (fun _ => Except.ok ())

/-- Outcome of one replayed action after the per-action catch. -/
inductive ReplayOutcome
  | completed
  | failed (msg : String)
deriving Repr, DecidableEq

/-- One iteration of the replay loop with its try/catch (main.js lines
274-520): any error is logged as a warning and the loop continues. -/
def replayAction (page : ReplayPage) (a : ReplayAction) : ReplayOutcome :=
  match replayActionBody page a with
  | Except.ok _ => ReplayOutcome.completed
  | Except.error e => ReplayOutcome.failed e

/-- The full replay loop: every recorded action is attempted in order. -/
def replayActions (page : ReplayPage) : List ReplayAction → List ReplayOutcome
  | [] => []
  | a :: rest => replayAction page a :: replayActions page rest

/-! ## Capture orchestrator (main.js lines 176-553 and 875-960) -/

/-- Options of the capture-playwright-screenshot handler (main.js
line 178). -/
structure CaptureOptions where
  url : String
  width : ℚ
  height : ℚ
  deviceScaleFactor : ℚ
  hasAppState : Bool
  recordedActions : List ReplayAction

/-- Environment oracle: which of the fallible steps of the handler
succeed, and the page the replay engine runs against. -/
structure CaptureEnv where
  launchOk : Bool
  newContextOk : Bool
  gotoOk : Bool
  vueWaitOk : Bool
  screenshotOk : Bool
  page : ReplayPage

/-- Observable driver effects of the capture handler, in order. -/
inductive CaptureEffect
  | launch
  | newContext (viewportWidth viewportHeight deviceScaleFactor : ℚ)
  | injectAppState
  | gotoURL (url : String)
  | vueWait
  | replayRun (actionCount : Nat)
  | screenshotClip (x y w h : ℚ)
  | browserClose
deriving Repr, DecidableEq

/-- The produced PNG, reduced to its pixel dimensions.  Playwright
renders a clipped screenshot at clip size times the context
deviceScaleFactor. -/
structure Image where
  pixelWidth : ℚ
  pixelHeight : ℚ
deriving Repr, DecidableEq

/-- Playwright screenshot semantics for a clip of w by h logical pixels
in a context with the given deviceScaleFactor. -/
def screenshotImage (w h dsf : ℚ) : Image :=
  { pixelWidth := w * dsf, pixelHeight := h * dsf }

/-- Result of one run of the capture handler: the ordered effect trace
and the returned buffer or propagated error. -/
structure CaptureRun where
  effects : List CaptureEffect
  result : Except String Image
deriving Repr

/-- The capture-playwright-screenshot handler (main.js lines 176-553):
launch, a context at the logical viewport with the device scale factor,
optional state injection, navigation, Vue waits, the replay loop, a
clipped screenshot at exactly width by height, and a browser close on
the success path and inside the catch on every failure path after
launch. -/
def capturePlaywrightScreenshot (env : CaptureEnv) (opts : CaptureOptions) : CaptureRun :=
  if !env.launchOk then
    { effects := [], result := Except.error ("launch failed") }
  else if !env.newContextOk then
    { effects := [CaptureEffect.launch, CaptureEffect.browserClose],
      result := Except.error ("newContext failed") }
  else
    let pre := [CaptureEffect.launch,
      CaptureEffect.newContext opts.width opts.height opts.deviceScaleFactor]
    let pre := if opts.hasAppState then pre ++ [CaptureEffect.injectAppState] else pre
    if !env.gotoOk then
      { effects := pre ++ [CaptureEffect.gotoURL opts.url, CaptureEffect.browserClose],
        result := Except.error ("navigation failed") }
    else if !env.vueWaitOk then
      { effects := pre ++ [CaptureEffect.gotoURL opts.url, CaptureEffect.vueWait,
          CaptureEffect.browserClose],
        result := Except.error ("vue wait timed out") }
    else
      let mid := pre ++ [CaptureEffect.gotoURL opts.url, CaptureEffect.vueWait]
      let mid := if opts.recordedActions.length > 0 then
          mid ++ [CaptureEffect.replayRun (replayActions env.page opts.recordedActions).length]
        else mid
      if !env.screenshotOk then
        { effects := mid ++ [CaptureEffect.screenshotClip 0 0 opts.width opts.height,
            CaptureEffect.browserClose],
          result := Except.error ("screenshot failed") }
      else
        { effects := mid ++ [CaptureEffect.screenshotClip 0 0 opts.width opts.height,
            CaptureEffect.browserClose],
          result := Except.ok (screenshotImage opts.width opts.height opts.deviceScaleFactor) }

/-- A manually opened browser as the manual capture path sees it:
whether it is still connected, whether close succeeds, and whether its
screenshot succeeds. -/
structure ManualBrowser where
  connected : Bool
  closeOk : Bool
  screenshotOk : Bool
deriving Repr, DecidableEq

/-- capture-manual-screenshots (main.js lines 875-960).  On the success
path every browser is closed inside a per browser try/catch and the list
is emptied.  In the catch path the close loop shares one try block, so a
throwing close aborts the loop before the list is emptied. -/
def captureManualScreenshots (browsers : List ManualBrowser) :
    List ManualBrowser × Bool :=
  if browsers.all (fun b => b.screenshotOk) then
    ([], true)
  else
    if browsers.all (fun b => !b.connected || b.closeOk) then
      ([], false)
    else
      (browsers, false)

/-! ## Theorems -/

/-- C7 counterexample: starting from scrollbars shown and scroll sync on,
the hide-scrollbars toggle (an operation that is not the scroll channel
toggle) flips the scroll channel flag off, so a channel flag is mutated
by a different setting change. -/
theorem C7_scroll_flag_counterexample :
    (toggleHideScrollbars
        { syncSettings := { scroll := true, navigation := true, click := true,
                            hover := false, input := false },
          hideScrollbars := false }).syncSettings.scroll = false ∧
    ({ syncSettings := { scroll := true, navigation := true, click := true,
                         hover := false, input := false },
       hideScrollbars := false } : UIState).syncSettings.scroll = true := by
  decide

/-- C7 (amended): navigation, click, hover and input flags are changed
only by their own toggles; every toggle leaves the four other channel
flags unchanged; but the hide-scrollbars toggle additionally forces the
scroll flag to the negation of the new hideScrollbars value. -/
theorem C7_channel_toggle_frame (s : UIState) :
    ((toggleScrollSync s).syncSettings.navigation = s.syncSettings.navigation ∧
     (toggleScrollSync s).syncSettings.click = s.syncSettings.click ∧
     (toggleScrollSync s).syncSettings.hover = s.syncSettings.hover ∧
     (toggleScrollSync s).syncSettings.input = s.syncSettings.input ∧
     (toggleScrollSync s).hideScrollbars = s.hideScrollbars) ∧
    ((toggleNavigationSync s).syncSettings.scroll = s.syncSettings.scroll ∧
     (toggleNavigationSync s).syncSettings.click = s.syncSettings.click ∧
     (toggleNavigationSync s).syncSettings.hover = s.syncSettings.hover ∧
     (toggleNavigationSync s).syncSettings.input = s.syncSettings.input ∧
     (toggleNavigationSync s).hideScrollbars = s.hideScrollbars) ∧
    ((toggleClickSync s).syncSettings.scroll = s.syncSettings.scroll ∧
     (toggleClickSync s).syncSettings.navigation = s.syncSettings.navigation ∧
     (toggleClickSync s).syncSettings.hover = s.syncSettings.hover ∧
     (toggleClickSync s).syncSettings.input = s.syncSettings.input ∧
     (toggleClickSync s).hideScrollbars = s.hideScrollbars) ∧
    ((toggleHoverSync s).syncSettings.scroll = s.syncSettings.scroll ∧
     (toggleHoverSync s).syncSettings.navigation = s.syncSettings.navigation ∧
     (toggleHoverSync s).syncSettings.click = s.syncSettings.click ∧
     (toggleHoverSync s).syncSettings.input = s.syncSettings.input ∧
     (toggleHoverSync s).hideScrollbars = s.hideScrollbars) ∧
    ((toggleInputSync s).syncSettings.scroll = s.syncSettings.scroll ∧
     (toggleInputSync s).syncSettings.navigation = s.syncSettings.navigation ∧
     (toggleInputSync s).syncSettings.click = s.syncSettings.click ∧
     (toggleInputSync s).syncSettings.hover = s.syncSettings.hover ∧
     (toggleInputSync s).hideScrollbars = s.hideScrollbars) ∧
    ((toggleHideScrollbars s).syncSettings.navigation = s.syncSettings.navigation ∧
     (toggleHideScrollbars s).syncSettings.click = s.syncSettings.click ∧
     (toggleHideScrollbars s).syncSettings.hover = s.syncSettings.hover ∧
     (toggleHideScrollbars s).syncSettings.input = s.syncSettings.input ∧
     (toggleHideScrollbars s).hideScrollbars = !s.hideScrollbars ∧
     (toggleHideScrollbars s).syncSettings.scroll = !(toggleHideScrollbars s).hideScrollbars) := by
  rcases s with ⟨⟨a, b, c, d, e⟩, h⟩
  revert a b c d e h
  decide

/-- C10: loadURL trims the address bar input, prepends the https scheme
exactly when neither scheme is present, and the resulting URL is what is
put at the head of the saved history and loaded into every pane. -/
theorem C10_loadURL_normalizes_scheme (s : BrowserUIState) :
    normalizeURL s.urlInput =
      (if (s.urlInput.trim.startsWith ("http://") ||
           s.urlInput.trim.startsWith ("https://")) then
        s.urlInput.trim
      else
        "https://" ++ s.urlInput.trim) ∧
    (loadURL s).urlHistory.head? = some (normalizeURL s.urlInput) ∧
    (loadURL s).currentURL = normalizeURL s.urlInput ∧
    (loadURL s).paneURLs = s.paneURLs.map (fun _ => normalizeURL s.urlInput) := by
  refine ⟨?_, ?_, ?_, ?_⟩
  · unfold normalizeURL
    rcases hb : s.urlInput.trim.startsWith ("http://") with _ | _ <;>
      rcases hb2 : s.urlInput.trim.startsWith ("https://") with _ | _ <;>
        simp [hb, hb2]
  · simp [loadURL, saveToHistory]
  · simp [loadURL]
  · simp [loadURL]

/-- A concrete document read interface used for evaluation. -/
def trivialDom : Dom :=
  { count := fun _ => 0,
    parentOf := fun _ => none,
    isBody := fun _ => false,
    sameTagSiblingCount := fun _ => 0,
    sameTagSiblingIndex := fun _ => 0 }

/-- C8: an element with a nonempty id makes generateSelector return the
id selector immediately, whatever the classes, document structure and
uniqueness oracle say. -/
theorem C8_id_selector_priority (dom : Dom) (element : DomElement)
    (h : element.id ≠ "") :
    generateSelector dom element = "#" ++ element.id := by
  unfold generateSelector
  rw [if_pos h]

/-- C8 witness: a concrete button with id submit. -/
theorem C8_id_selector_priority_witness :
    ({ id := "submit", className := "btn active", tagName := "BUTTON" } : DomElement).id ≠ "" ∧
    generateSelector trivialDom
        { id := "submit", className := "btn active", tagName := "BUTTON" } = "#submit" :=
  ⟨by decide,
   C8_id_selector_priority trivialDom
     { id := "submit", className := "btn active", tagName := "BUTTON" } (by decide)⟩

/-- One axis of the percent round trip: re-applying the emitted fraction
against the same scrollable range moves the position by at most one
pixel (and exactly restores it whenever the range is at least 1px). -/
theorem scroll_roundtrip_axis (x m : ℚ) (h0 : 0 ≤ x) (h1 : x ≤ max 0 m) :
    |clampScroll (x / max 1 m * m) m - x| ≤ 1 := by
  rcases le_or_lt 1 m with hm | hm
  · have hm0 : (0 : ℚ) < m := lt_of_lt_of_le one_pos hm
    have hx_le : x ≤ m := by
      rw [max_eq_right (le_of_lt hm0)] at h1; exact h1
    rw [max_eq_right hm, div_mul_cancel₀ x (ne_of_gt hm0)]
    have hc : clampScroll x m = x := by
      unfold clampScroll
      rw [max_eq_left h0, max_eq_left (le_of_lt hm0), min_eq_left hx_le]
    rw [hc]
    simp
  · rw [max_eq_left (le_of_lt hm), div_one]
    rcases le_or_lt m 0 with hm0 | hm0
    · have hx0 : x = 0 := le_antisymm (by rwa [max_eq_left hm0] at h1) h0
      subst hx0
      have hc : clampScroll (0 * m) m = 0 := by
        unfold clampScroll
        rw [zero_mul, max_self, max_eq_right hm0, min_self]
      rw [hc]
      simp
    · have hx_le : x ≤ m := by
        rw [max_eq_right (le_of_lt hm0)] at h1; exact h1
      have hxm0 : 0 ≤ x * m := mul_nonneg h0 (le_of_lt hm0)
      have hxm_le : x * m ≤ m := by nlinarith
      have hc : clampScroll (x * m) m = x * m := by
        unfold clampScroll
        rw [max_eq_left hxm0, max_eq_left (le_of_lt hm0), min_eq_left hxm_le]
      rw [hc, abs_le]
      constructor <;> nlinarith

/-- C2: emitting the percent payload for a document and applying the
scroll branch of applySyncAction back to the same document restores the
absolute scroll position to within 1px on both axes (for any valid
scroll position, clamped to the scrollable range). -/
theorem C2_scroll_percent_roundtrip (d : ScrollDoc)
    (hx0 : 0 ≤ d.scrollX)
    (hx1 : d.scrollX ≤ max 0 (d.scrollWidth - d.innerWidth))
    (hy0 : 0 ≤ d.scrollY)
    (hy1 : d.scrollY ≤ max 0 (d.scrollHeight - d.innerHeight)) :
    |(applyScrollAction d (emitScrollPercent d)).scrollX - d.scrollX| ≤ 1 ∧
    |(applyScrollAction d (emitScrollPercent d)).scrollY - d.scrollY| ≤ 1 := by
  constructor
  · simpa [applyScrollAction, emitScrollPercent] using
      scroll_roundtrip_axis d.scrollX (d.scrollWidth - d.innerWidth) hx0 hx1
  · simpa [applyScrollAction, emitScrollPercent] using
      scroll_roundtrip_axis d.scrollY (d.scrollHeight - d.innerHeight) hy0 hy1

/-- A concrete scrollable document for evaluation: a 2000 by 3000 page in
a 1000 by 800 viewport, scrolled to (500, 1100). -/
def sampleDoc : ScrollDoc :=
  { scrollWidth := 2000, scrollHeight := 3000, innerWidth := 1000,
    innerHeight := 800, scrollX := 500, scrollY := 1100 }

/-- C2 witness: the round trip at the sample document. -/
theorem C2_scroll_percent_roundtrip_witness :
    (0 ≤ sampleDoc.scrollX ∧
     sampleDoc.scrollX ≤ max 0 (sampleDoc.scrollWidth - sampleDoc.innerWidth)) ∧
    |(applyScrollAction sampleDoc (emitScrollPercent sampleDoc)).scrollX - sampleDoc.scrollX| ≤ 1 ∧
    |(applyScrollAction sampleDoc (emitScrollPercent sampleDoc)).scrollY - sampleDoc.scrollY| ≤ 1 :=
  ⟨⟨by norm_num [sampleDoc], by norm_num [sampleDoc]⟩,
   C2_scroll_percent_roundtrip sampleDoc (by norm_num [sampleDoc])
     (by norm_num [sampleDoc]) (by norm_num [sampleDoc]) (by norm_num [sampleDoc])⟩

/-- A pane never re-emits a click that was applied into it: the apply
raises the guard before the synthetic dispatch. -/
theorem paneEcho_none (p : PaneCtx) (now : ℤ) (sel : String) (x y : ℚ) :
    paneEcho p now sel x y = none := by
  simp [paneEcho, applyClickAction, syncClickHandler]

/-- The Sync Dispatcher fires at most once per original user click, for
any pane states, source index and pane count. -/
theorem syncEchoCascade_le_one (panes : List PaneCtx) (src : Nat) (now : ℤ)
    (sel : String) (x y : ℚ) : syncEchoCascade panes src now sel x y ≤ 1 := by
  unfold syncEchoCascade
  cases hsrc : panes.get? src with
  | none => simp
  | some ctx =>
    cases hemit : (syncClickHandler ctx now sel x y).2 with
    | none => simp [hemit]
    | some ev =>
      simp [hemit]
      intro j _ _ p _
      exact paneEcho_none p now sel x y

/-- C1: while isProcessingSync is raised, none of the scroll, click,
hover or input listeners of a pane emits a SyncEvent; every click or
scroll applied through applySyncAction is re-observed only under the
raised flag and therefore re-emits nothing; hence the Sync Dispatcher is
invoked at most once per original user click for any number of panes. -/
theorem C1_no_sync_echo (ctx : PaneCtx) (now : ℤ) (d : ScrollDoc) (sel : String)
    (x y px py : ℚ) (lastHovered : Option DomElement) (dom : Dom)
    (target : DomElement) (el : InputElement) (p : PaneCtx)
    (panes : List PaneCtx) (src : Nat)
    (h : ctx.isProcessingSync = true) :
    scrollHandler ctx now d = (ctx, none) ∧
    syncClickHandler ctx now sel x y = (ctx, none) ∧
    hoverOverHandler ctx lastHovered dom target = (lastHovered, none) ∧
    syncInputHandler ctx el = none ∧
    paneEcho p now sel x y = none ∧
    (applyScrollActionPane p now d px py).2.2 = none ∧
    syncEchoCascade panes src now sel x y ≤ 1 := by
  refine ⟨?_, ?_, ?_, ?_, paneEcho_none p now sel x y, ?_,
    syncEchoCascade_le_one panes src now sel x y⟩
  · simp [scrollHandler, h]
  · simp [syncClickHandler, h]
  · simp [hoverOverHandler, h]
  · simp [syncInputHandler, h]
  · simp [applyScrollActionPane, scrollHandler]

/-- C1 witness: a concrete pane with the guard raised, two idle peer
panes, and concrete event data. -/
theorem C1_no_sync_echo_witness :
    (({ isProcessingSync := true, lastScrollTime := 0, lastClickTime := 0 } : PaneCtx).isProcessingSync = true) ∧
    (scrollHandler { isProcessingSync := true, lastScrollTime := 0, lastClickTime := 0 } 500 sampleDoc =
        ({ isProcessingSync := true, lastScrollTime := 0, lastClickTime := 0 }, none) ∧
     syncClickHandler { isProcessingSync := true, lastScrollTime := 0, lastClickTime := 0 } 500 ("#submit") 10 20 =
        ({ isProcessingSync := true, lastScrollTime := 0, lastClickTime := 0 }, none) ∧
     hoverOverHandler { isProcessingSync := true, lastScrollTime := 0, lastClickTime := 0 } none trivialDom
        { id := "", className := "", tagName := "DIV" } = (none, none) ∧
     syncInputHandler { isProcessingSync := true, lastScrollTime := 0, lastClickTime := 0 }
        { id := "q", tagName := "INPUT", value := "v" } = none ∧
     paneEcho { isProcessingSync := false, lastScrollTime := 0, lastClickTime := 0 } 500 ("#submit") 10 20 = none ∧
     (applyScrollActionPane { isProcessingSync := false, lastScrollTime := 0, lastClickTime := 0 } 500 sampleDoc
        (1 / 2) (1 / 2)).2.2 = none ∧
     syncEchoCascade
        [{ isProcessingSync := false, lastScrollTime := 0, lastClickTime := 0 },
         { isProcessingSync := false, lastScrollTime := 0, lastClickTime := 0 },
         { isProcessingSync := false, lastScrollTime := 0, lastClickTime := 0 }] 0 500 ("#submit") 10 20 ≤ 1) :=
  ⟨rfl,
   C1_no_sync_echo { isProcessingSync := true, lastScrollTime := 0, lastClickTime := 0 }
     500 sampleDoc ("#submit") 10 20 (1 / 2) (1 / 2) none trivialDom
     { id := "", className := "", tagName := "DIV" }
     { id := "q", tagName := "INPUT", value := "v" }
     { isProcessingSync := false, lastScrollTime := 0, lastClickTime := 0 }
     [{ isProcessingSync := false, lastScrollTime := 0, lastClickTime := 0 },
      { isProcessingSync := false, lastScrollTime := 0, lastClickTime := 0 },
      { isProcessingSync := false, lastScrollTime := 0, lastClickTime := 0 }] 0 rfl⟩

/-- Every entry storeDeviceSpecificAction appends carries the handled
event type. -/
theorem storeDeviceSpecificAction_type (logs : String → List RecordedAction)
    (wv : Webview) (t : SyncType) (data : String) (now : ℤ) :
    ∀ a ∈ (storeDeviceSpecificAction logs wv t data now).2, a.type = t := by
  intro a ha
  unfold storeDeviceSpecificAction at ha
  split at ha
  · simp at ha
  · simp at ha
    subst ha
    rfl

/-- Every entry appended while forwarding to the other panes carries the
forwarded event type. -/
theorem syncToOtherAux_append_type (r : Bool) (t : SyncType) (data : String)
    (now : ℤ) (srcIdx : Nat) :
    ∀ (rest : List Webview) (j : Nat) (logs : String → List RecordedAction)
      (a : RecordedAction),
      a ∈ (syncToOtherAux r t data now srcIdx j rest logs).2.2.2 → a.type = t := by
  intro rest
  induction rest with
  | nil =>
    intro j logs a ha
    simp [syncToOtherAux] at ha
  | cons wv rest ih =>
    intro j logs a ha
    unfold syncToOtherAux at ha
    split at ha
    · split at ha
      · split at ha
        · split at ha
          · exact ih (j + 1) logs a (by simpa using ha)
          · rcases List.mem_append.mp (by simpa using ha) with hl | hr
            · exact storeDeviceSpecificAction_type logs wv t data now a hl
            · exact ih (j + 1) _ a hr
        · exact ih (j + 1) logs a (by simpa using ha)
      · exact ih (j + 1) logs a (by simpa using ha)
    · exact ih (j + 1) logs a (by simpa using ha)

/-- Forwarding a type that is neither click nor input appends nothing. -/
theorem syncToOtherAux_no_record (r : Bool) (t : SyncType) (data : String)
    (now : ℤ) (srcIdx : Nat)
    (ht : (t = SyncType.click || t = SyncType.inputTy) = false) :
    ∀ (rest : List Webview) (j : Nat) (logs : String → List RecordedAction),
      (syncToOtherAux r t data now srcIdx j rest logs).2.2.2 = [] := by
  intro rest
  induction rest with
  | nil => intro j logs; simp [syncToOtherAux]
  | cons wv rest ih =>
    intro j logs
    unfold syncToOtherAux
    split
    · split
      · rw [ht]
        simp [ih (j + 1) logs]
      · simp [ih (j + 1) logs]
    · simp [ih (j + 1) logs]

/-- Every entry the source side recording block appends carries the
handled event type. -/
theorem recordSyncForSource_type (st : RendererState) (srcIdx : Nat) (t : SyncType)
    (data : String) (now : ℤ) :
    ∀ a ∈ (recordSyncForSource st srcIdx t data now).2, a.type = t := by
  intro a ha
  unfold recordSyncForSource at ha
  split at ha
  · split at ha
    · simp at ha
    · split at ha
      · simp at ha
      · exact storeDeviceSpecificAction_type _ _ t data now a (by simpa using ha)
  · simp at ha

/-- A list whose entries all have type t maps to a constant type list. -/
theorem map_type_replicate (l : List RecordedAction) (t : SyncType)
    (h : ∀ a ∈ l, a.type = t) :
    l.map RecordedAction.type = List.replicate l.length t := by
  induction l with
  | nil => simp
  | cons a l ih =>
    simp only [List.map_cons, List.length_cons, List.replicate_succ]
    rw [h a (by simp), ih (fun b hb => h b (by simp [hb]))]

/-- C3 (amended): every DeviceActionLog entry appended while handling a
console message carries the type of the very SyncEvent that passed
through the Sync Dispatcher in that step, appends only happen in steps
where the dispatcher was invoked, and forwarded scroll and hover events
never produce log entries (only click and input do). -/
theorem C3_recorder_dispatcher_correspondence (st : RendererState) (srcIdx : Nat)
    (t : SyncType) (data : String) (now : ℤ) :
    (handleConsoleMessage st srcIdx t data now).appends.map RecordedAction.type =
      List.replicate (handleConsoleMessage st srcIdx t data now).appends.length t ∧
    (handleConsoleMessage st srcIdx SyncType.scroll data now).appends = [] ∧
    (handleConsoleMessage st srcIdx SyncType.hover data now).appends = [] ∧
    ((handleConsoleMessage st srcIdx t data now).appends.isEmpty ||
      (handleConsoleMessage st srcIdx t data now).dispatcherInvoked) = true := by
  refine ⟨?_, ?_, ?_, ?_⟩
  · apply map_type_replicate
    intro a ha
    unfold handleConsoleMessage at ha
    split at ha
    · split at ha
      · rcases List.mem_append.mp (by simpa [syncToOtherWebviews] using ha) with hl | hr
        · exact syncToOtherAux_append_type _ t data now srcIdx st.webviews 0 _ a hl
        · exact recordSyncForSource_type _ srcIdx t data now a hr
      · exact syncToOtherAux_append_type _ t data now srcIdx st.webviews 0 _ a
          (by simpa [syncToOtherWebviews] using ha)
    · simp at ha
  · unfold handleConsoleMessage
    split
    · simp [syncToOtherWebviews,
        syncToOtherAux_no_record st.isRecording SyncType.scroll data now srcIdx rfl]
    · rfl
  · unfold handleConsoleMessage
    split
    · simp [syncToOtherWebviews,
        syncToOtherAux_no_record st.isRecording SyncType.hover data now srcIdx rfl]
    · rfl
  · unfold handleConsoleMessage
    split
    · split <;> simp
    · simp

/-- Sync settings with every channel enabled. -/
def allOnSettings : SyncSettings :=
  { scroll := true, navigation := true, click := true, hover := true, input := true }

/-- A first concrete pane for the recorder scenarios. -/
def cexWebviewA : Webview :=
  { deviceName := "Device A", url := "https://example.com", scriptOk := true,
    deviceInfo := some { width := 393, height := 852, deviceScaleFactor := 3 },
    lastRecordedAction := { time := 0, type := none, data := "" } }

/-- A second concrete pane for the recorder scenarios. -/
def cexWebviewB : Webview :=
  { deviceName := "Device B", url := "https://example.com", scriptOk := true,
    deviceInfo := some { width := 820, height := 1180, deviceScaleFactor := 2 },
    lastRecordedAction := { time := 0, type := none, data := "" } }

/-- A recording session over the two concrete panes with every channel
enabled and empty logs. -/
def cexRecordingState : RendererState :=
  { webviews := [cexWebviewA, cexWebviewB], syncSettings := allOnSettings,
    isRecording := true, deviceSpecificActions := fun _ => [] }

/-- C3 counterexample: during recording a scroll SyncEvent is forwarded
by the Sync Dispatcher to the other pane, yet no DeviceActionLog entry
is produced for any device, contradicting the claim that every forwarded
SyncEvent type produces a corresponding log entry. -/
theorem C3_scroll_not_recorded_counterexample :
    (handleConsoleMessage cexRecordingState 0 SyncType.scroll ("p50") 1000).dispatcherInvoked = true ∧
    (handleConsoleMessage cexRecordingState 0 SyncType.scroll ("p50") 1000).forwards =
      [(1, SyncType.scroll, "p50")] ∧
    (handleConsoleMessage cexRecordingState 0 SyncType.scroll ("p50") 1000).appends = [] ∧
    (handleConsoleMessage cexRecordingState 0 SyncType.scroll ("p50") 1000).state.deviceSpecificActions
      ("Device A") = [] ∧
    (handleConsoleMessage cexRecordingState 0 SyncType.scroll ("p50") 1000).state.deviceSpecificActions
      ("Device B") = [] := by
  refine ⟨rfl, rfl, rfl, rfl, rfl⟩

/-- With a single pane, handling a recordable console message reduces to
the source side recording block with the duplicate guard. -/
theorem handleConsoleMessage_single (wv : Webview) (settings : SyncSettings)
    (logs : String → List RecordedAction) (t : SyncType) (data : String) (now : ℤ)
    (hch : channelEnabled settings t = true)
    (hti : t = SyncType.click ∨ t = SyncType.inputTy) :
    handleConsoleMessage
        { webviews := [wv], syncSettings := settings, isRecording := true,
          deviceSpecificActions := logs } 0 t data now =
      if isDuplicateFor wv t now then
        { state := { webviews := [wv], syncSettings := settings, isRecording := true,
                     deviceSpecificActions := logs },
          dispatcherInvoked := true, forwards := [], appends := [] }
      else
        { state :=
            { webviews :=
                [{ wv with lastRecordedAction := { time := now, type := some t, data := data } }],
              syncSettings := settings, isRecording := true,
              deviceSpecificActions := (storeDeviceSpecificAction logs wv t data now).1 },
          dispatcherInvoked := true, forwards := [],
          appends := (storeDeviceSpecificAction logs wv t data now).2 } := by
  have htib : (t = SyncType.click || t = SyncType.inputTy) = true := by
    rcases hti with h | h <;> subst h <;> simp
  by_cases hdup : isDuplicateFor wv t now = true
  · rw [if_pos hdup]
    unfold handleConsoleMessage syncToOtherWebviews recordSyncForSource
    simp [hch, htib, syncToOtherAux, hdup]
  · rw [if_neg hdup]
    unfold handleConsoleMessage syncToOtherWebviews recordSyncForSource
    simp [hch, htib, syncToOtherAux, hdup]

/-- C4 (amended): with a single recording pane, when a click or input
SyncEvent is actually recorded and a second SyncEvent of the same type
arrives for the same device within 100ms, the second is discarded: no
entry is appended and the device log is unchanged.  (Two same-type
events within 100ms are both kept when an event of a different type was
recorded in between, as the counterexample shows.) -/
theorem C4_recorder_dedup_consecutive (wv : Webview) (settings : SyncSettings)
    (logs : String → List RecordedAction) (t : SyncType) (d1 d2 : String)
    (t1 t2 : ℤ)
    (hti : t = SyncType.click ∨ t = SyncType.inputTy)
    (hch : channelEnabled settings t = true)
    (hfirst : (handleConsoleMessage
        { webviews := [wv], syncSettings := settings, isRecording := true,
          deviceSpecificActions := logs } 0 t d1 t1).appends ≠ [])
    (hdt : t2 - t1 < 100) :
    (handleConsoleMessage
        (handleConsoleMessage
          { webviews := [wv], syncSettings := settings, isRecording := true,
            deviceSpecificActions := logs } 0 t d1 t1).state 0 t d2 t2).appends = [] ∧
    (handleConsoleMessage
        (handleConsoleMessage
          { webviews := [wv], syncSettings := settings, isRecording := true,
            deviceSpecificActions := logs } 0 t d1 t1).state 0 t d2 t2).state.deviceSpecificActions
        wv.deviceName =
      (handleConsoleMessage
        { webviews := [wv], syncSettings := settings, isRecording := true,
          deviceSpecificActions := logs } 0 t d1 t1).state.deviceSpecificActions
        wv.deviceName := by
  rw [handleConsoleMessage_single wv settings logs t d1 t1 hch hti] at hfirst ⊢
  by_cases hdup : isDuplicateFor wv t t1
  · rw [if_pos hdup] at hfirst
    exact absurd rfl hfirst
  · rw [if_neg hdup] at hfirst ⊢
    rw [handleConsoleMessage_single _ settings _ t d2 t2 hch hti]
    have hdup2 : isDuplicateFor
        { wv with lastRecordedAction := { time := t1, type := some t, data := d1 } } t t2 = true := by
      simp [isDuplicateFor]
      exact hdt
    rw [if_pos hdup2]
    exact ⟨rfl, rfl⟩

/-- C4 counterexample: with recording on, a click at t=0, an input at
t=30 and a second click at t=60 are all recorded for the same device:
the two click SyncEvents are of the same type and only 60ms apart, yet
both are appended, because the duplicate guard only compares against the
most recently recorded action. -/
theorem C4_interleaved_dedup_counterexample :
    ((handleConsoleMessage
        (handleConsoleMessage
          (handleConsoleMessage
            { webviews := [cexWebviewA], syncSettings := allOnSettings,
              isRecording := true, deviceSpecificActions := fun _ => [] }
            0 SyncType.click ("c1") 0).state
          0 SyncType.inputTy ("i1") 30).state
        0 SyncType.click ("c2") 60).state.deviceSpecificActions ("Device A")).map
      (fun a => (a.type, a.timestamp)) =
    [(SyncType.click, 0), (SyncType.inputTy, 30), (SyncType.click, 60)] := by
  rfl

/-- C4 witness: a concrete pane, a recorded click at t=0 and a second
click at t=50 that is discarded. -/
theorem C4_recorder_dedup_consecutive_witness :
    (channelEnabled allOnSettings SyncType.click = true ∧
     (handleConsoleMessage
        { webviews := [cexWebviewA], syncSettings := allOnSettings, isRecording := true,
          deviceSpecificActions := fun _ => [] } 0 SyncType.click ("c1") 0).appends ≠ [] ∧
     (50 : ℤ) - 0 < 100) ∧
    ((handleConsoleMessage
        (handleConsoleMessage
          { webviews := [cexWebviewA], syncSettings := allOnSettings, isRecording := true,
            deviceSpecificActions := fun _ => [] } 0 SyncType.click ("c1") 0).state
        0 SyncType.click ("c2") 50).appends = [] ∧
     (handleConsoleMessage
        (handleConsoleMessage
          { webviews := [cexWebviewA], syncSettings := allOnSettings, isRecording := true,
            deviceSpecificActions := fun _ => [] } 0 SyncType.click ("c1") 0).state
        0 SyncType.click ("c2") 50).state.deviceSpecificActions cexWebviewA.deviceName =
      (handleConsoleMessage
        { webviews := [cexWebviewA], syncSettings := allOnSettings, isRecording := true,
          deviceSpecificActions := fun _ => [] } 0 SyncType.click ("c1") 0).state.deviceSpecificActions
        cexWebviewA.deviceName) :=
  ⟨⟨rfl, by decide, by decide⟩,
   C4_recorder_dedup_consecutive cexWebviewA allOnSettings (fun _ => [])
     SyncType.click ("c1") ("c2") 0 50 (Or.inl rfl) rfl (by decide) (by decide)⟩

/-- The replay loop attempts exactly as many actions as the log holds. -/
theorem replayActions_length (page : ReplayPage) (actions : List ReplayAction) :
    (replayActions page actions).length = actions.length := by
  induction actions with
  | nil => rfl
  | cons a rest ih => simp [replayActions, ih]

/-- C5: replay never aborts early: for any log split around any action,
the outcome sequence is the pointwise per-action outcome, so a failing
action (selector miss or any throwing tier) leaves every subsequent
action still attempted, and the engine always completes the full
sequence. -/
theorem C5_replay_resilience (page : ReplayPage) (pre : List ReplayAction)
    (a : ReplayAction) (post : List ReplayAction) :
    replayActions page (pre ++ a :: post) =
      replayActions page pre ++ replayAction page a :: replayActions page post ∧
    (replayActions page (pre ++ a :: post)).length = pre.length + 1 + post.length := by
  constructor
  · induction pre with
    | nil => rfl
    | cons b pre ih => simp [replayActions, ih]
  · rw [replayActions_length]
    simp
    omega

/-- A successful capture returns exactly the clipped image at the device
scale factor. -/
theorem capture_ok_image (env : CaptureEnv) (opts : CaptureOptions) (img : Image)
    (h : (capturePlaywrightScreenshot env opts).result = Except.ok img) :
    img = screenshotImage opts.width opts.height opts.deviceScaleFactor := by
  unfold capturePlaywrightScreenshot at h
  split_ifs at h <;> simp_all

/-- A successful capture used a context at the logical viewport with the
device scale factor and a clip of exactly the logical dimensions. -/
theorem capture_ok_effects (env : CaptureEnv) (opts : CaptureOptions) (img : Image)
    (h : (capturePlaywrightScreenshot env opts).result = Except.ok img) :
    CaptureEffect.newContext opts.width opts.height opts.deviceScaleFactor ∈
      (capturePlaywrightScreenshot env opts).effects ∧
    CaptureEffect.screenshotClip 0 0 opts.width opts.height ∈
      (capturePlaywrightScreenshot env opts).effects := by
  unfold capturePlaywrightScreenshot at h ⊢
  split_ifs at h ⊢ <;> simp_all [List.mem_append]

/-- C6: a successful capture produces an image of pixel dimensions
width times deviceScaleFactor by height times deviceScaleFactor, in a
context whose viewport is the logical device size at the device scale
factor, clipped at exactly the logical size; two successful runs with
the same options (against any page environments) produce identical
images, independent of page content. -/
theorem C6_capture_dimensions (env env2 : CaptureEnv) (opts : CaptureOptions)
    (img img2 : Image)
    (h : (capturePlaywrightScreenshot env opts).result = Except.ok img)
    (h2 : (capturePlaywrightScreenshot env2 opts).result = Except.ok img2) :
    img.pixelWidth = opts.width * opts.deviceScaleFactor ∧
    img.pixelHeight = opts.height * opts.deviceScaleFactor ∧
    img2 = img ∧
    CaptureEffect.newContext opts.width opts.height opts.deviceScaleFactor ∈
      (capturePlaywrightScreenshot env opts).effects ∧
    CaptureEffect.screenshotClip 0 0 opts.width opts.height ∈
      (capturePlaywrightScreenshot env opts).effects := by
  have himg := capture_ok_image env opts img h
  have himg2 := capture_ok_image env2 opts img2 h2
  subst himg
  subst himg2
  have heff := capture_ok_effects env opts _ h
  exact ⟨rfl, rfl, rfl, heff.1, heff.2⟩

/-- A concrete replay page on which every selector lookup fails. -/
def stubPage : ReplayPage :=
  { probeSelector := fun _ => Except.error ("no such element"),
    clickSelector := fun _ => Except.error ("selector miss"),
    mouseClick := fun _ _ => Except.ok (),
    findVisibleByText := fun _ => Except.ok { found := false, x := 0, y := 0 },
    focusAt := fun _ _ => Except.ok (),
    markAt := fun _ _ _ => Except.ok (),
    clickMarked := Except.ok (),
    clearMark := Except.ok (),
    dispatchClickAt := fun _ _ => Except.ok (),
    afterClickState := Except.ok (),
    fillSelector := fun _ _ => Except.error ("selector miss"),
    scrollWindowTo := fun _ _ => Except.ok (),
    waitNetworkIdle := Except.ok () }

/-- A capture environment in which every orchestration step succeeds. -/
def okCaptureEnv : CaptureEnv :=
  { launchOk := true, newContextOk := true, gotoOk := true, vueWaitOk := true,
    screenshotOk := true, page := stubPage }

/-- Concrete capture options for a 393 by 852 device at scale factor 3. -/
def iPhoneOpts : CaptureOptions :=
  { url := "https://example.com", width := 393, height := 852,
    deviceScaleFactor := 3, hasAppState := false, recordedActions := [] }

/-- C6 witness: a successful concrete capture yields the 1179 by 2556
image and the expected context and clip effects. -/
theorem C6_capture_dimensions_witness :
    ((capturePlaywrightScreenshot okCaptureEnv iPhoneOpts).result =
      Except.ok { pixelWidth := 1179, pixelHeight := 2556 }) ∧
    (({ pixelWidth := 1179, pixelHeight := 2556 } : Image).pixelWidth =
        iPhoneOpts.width * iPhoneOpts.deviceScaleFactor ∧
     ({ pixelWidth := 1179, pixelHeight := 2556 } : Image).pixelHeight =
        iPhoneOpts.height * iPhoneOpts.deviceScaleFactor ∧
     ({ pixelWidth := 1179, pixelHeight := 2556 } : Image) =
        { pixelWidth := 1179, pixelHeight := 2556 } ∧
     CaptureEffect.newContext iPhoneOpts.width iPhoneOpts.height iPhoneOpts.deviceScaleFactor ∈
        (capturePlaywrightScreenshot okCaptureEnv iPhoneOpts).effects ∧
     CaptureEffect.screenshotClip 0 0 iPhoneOpts.width iPhoneOpts.height ∈
        (capturePlaywrightScreenshot okCaptureEnv iPhoneOpts).effects) := by
  have hres : (capturePlaywrightScreenshot okCaptureEnv iPhoneOpts).result =
      Except.ok { pixelWidth := 1179, pixelHeight := 2556 } := by
    have h0 : (capturePlaywrightScreenshot okCaptureEnv iPhoneOpts).result =
        Except.ok (screenshotImage iPhoneOpts.width iPhoneOpts.height
          iPhoneOpts.deviceScaleFactor) := rfl
    rw [h0]
    simp only [screenshotImage, iPhoneOpts, Except.ok.injEq, Image.mk.injEq]
    norm_num
  exact ⟨hres, C6_capture_dimensions okCaptureEnv okCaptureEnv iPhoneOpts _ _ hres hres⟩

/-- C9 counterexample: a manual session with one connected browser whose
screenshot fails and whose close also throws ends with failure reported
and the manualBrowsers list NOT emptied, contradicting the claim that
the list is emptied whether screenshots succeeded or failed. -/
theorem C9_manual_close_counterexample :
    (captureManualScreenshots
        [{ connected := true, closeOk := false, screenshotOk := false }]).2 = false ∧
    (captureManualScreenshots
        [{ connected := true, closeOk := false, screenshotOk := false }]).1 ≠ [] := by
  decide

/-- C9 (amended): after a successful launch the automated capture closes
the browser on the success path and on every failure path; the manual
browser list is emptied after screenshots on the success path, and on
the failure path exactly when closing the still-connected browsers does
not itself throw (a throwing close leaves the list as it was). -/
theorem C9_browser_cleanup (env : CaptureEnv) (opts : CaptureOptions)
    (browsers : List ManualBrowser)
    (h : env.launchOk = true) :
    CaptureEffect.browserClose ∈ (capturePlaywrightScreenshot env opts).effects ∧
    (captureManualScreenshots browsers).1 =
      (if (browsers.all (fun b => b.screenshotOk) ||
           browsers.all (fun b => !b.connected || b.closeOk)) then
        ([] : List ManualBrowser)
      else browsers) := by
  constructor
  · unfold capturePlaywrightScreenshot
    simp only [h]
    split_ifs <;> simp_all [List.mem_append]
  · unfold captureManualScreenshots
    by_cases h1 : browsers.all (fun b => b.screenshotOk) = true
    · simp [h1]
    · rw [Bool.not_eq_true] at h1
      by_cases h2 : browsers.all (fun b => !b.connected || b.closeOk) = true
      · simp [h1, h2]
      · rw [Bool.not_eq_true] at h2
        simp [h1, h2]

/-- C9 witness: a successful concrete capture closes its browser, and a
healthy manual session is emptied. -/
theorem C9_browser_cleanup_witness :
    (okCaptureEnv.launchOk = true) ∧
    (CaptureEffect.browserClose ∈
        (capturePlaywrightScreenshot okCaptureEnv iPhoneOpts).effects ∧
     (captureManualScreenshots
        [{ connected := true, closeOk := true, screenshotOk := true }]).1 =
       (if (([{ connected := true, closeOk := true, screenshotOk := true }] : List ManualBrowser).all
              (fun b => b.screenshotOk) ||
            ([{ connected := true, closeOk := true, screenshotOk := true }] : List ManualBrowser).all
              (fun b => !b.connected || b.closeOk)) then
         ([] : List ManualBrowser)
       else [{ connected := true, closeOk := true, screenshotOk := true }])) :=
  ⟨rfl,
   C9_browser_cleanup okCaptureEnv iPhoneOpts
     [{ connected := true, closeOk := true, screenshotOk := true }] rfl⟩

end FreePanes
